import Mathlib

/-
  Verification of docgpt (main.py and src/core/containers.py).

  The repository wires third-party components together; the only local
  control flow lives in main.py: a terminal REPL (run_terminal), a
  per-document ingestion loop (add_documents) and a fetch dispatcher
  (fetch_documents). External calls (the vector store, the assistant,
  the content ports, filesystem existence checks) are modelled as
  function parameters supplied by the environment; an exception raised
  by such a call is modelled as an explicit error value.
-/

namespace DocGpt

/-- Modelled from the spec: the Content domain entity (declared in
src/domain/content, which is not part of the provided sources): an
identifier/path, a payload (text or code), and metadata (source type,
file name, branch). -/
structure Content where
  path : String
  payload : String
  sourceType : String
  fileName : String
  branch : String
  deriving DecidableEq, Repr

/-- Outcome of a call into an external Python API: the call either
returns normally or raises an exception carrying a message. The
except clause in add_documents, written except (Exception,), catches
every such exception. -/
inductive CallResult where
  | ok : CallResult
  | raises : String → CallResult
  deriving DecidableEq, Repr

/-- A line printed by add_documents. failMsg e stands for the source
line print(f Fail to add document: e) inside the except clause, and
failSummary n for the final print(f n documents failed to add). -/
inductive OutLine where
  | failMsg : String → OutLine
  | failSummary : Nat → OutLine
  deriving DecidableEq, Repr

/-- State threaded through the add_documents loop of main.py lines
43-53: the documents list the function received, the fails_count
counter, the lines printed so far, and the trace of arguments passed
to storage.add_documents, in call order. -/
structure AddDocsState where
  documents : List Content
  fails_count : Nat
  output : List OutLine
  calls : List (List Content)
  deriving DecidableEq, Repr

/-- One iteration of the for-loop of add_documents (main.py lines
45-50): call storage.add_documents([doc]); on an exception, increment
fails_count and print the failure message; the except clause swallows
the exception in both cases, so the step always returns a state. -/
def addStep (storage : List Content → CallResult) (s : AddDocsState)
    (doc : Content) : AddDocsState :=
  match storage [doc] with
  | CallResult.ok =>
      { s with calls := s.calls ++ [[doc]] }
  | CallResult.raises e =>
      { s with
        calls := s.calls ++ [[doc]],
        fails_count := s.fails_count + 1,
        output := s.output ++ [OutLine.failMsg e] }

/-- The epilogue of add_documents (main.py lines 52-53): if
fails_count is truthy (nonzero), print the summary line. -/
def finalize (s : AddDocsState) : AddDocsState :=
  if s.fails_count ≠ 0 then
    { s with output := s.output ++ [OutLine.failSummary s.fails_count] }
  else s

/-- add_documents from main.py lines 38-53: iterate over the documents
in list order, attempting each exactly once, then print the summary if
any attempt failed. The function is total in the storage behaviour:
no exception raised by storage.add_documents escapes it. -/
def add_documents (storage : List Content → CallResult)
    (documents : List Content) : AddDocsState :=
  finalize (documents.foldl (addStep storage) ⟨documents, 0, [], []⟩)

/-- Whether a call outcome is an exception. -/
def raisesB : CallResult → Bool
  | CallResult.ok => false
  | CallResult.raises _ => true

/-- The number of documents whose storage.add_documents call raises. -/
def numFails (storage : List Content → CallResult)
    (documents : List Content) : Nat :=
  (documents.filter (fun d => raisesB (storage [d]))).length

/-- The per-document failure messages the loop prints, in order. -/
def failOutput (storage : List Content → CallResult)
    (documents : List Content) : List OutLine :=
  documents.filterMap (fun d =>
    match storage [d] with
    | CallResult.ok => none
    | CallResult.raises e => some (OutLine.failMsg e))

/-- The counts reported by failure-summary lines in an output. -/
def summaryCounts (out : List OutLine) : List Nat :=
  out.filterMap (fun l =>
    match l with
    | OutLine.failSummary n => some n
    | _ => none)

theorem addLoop_documents (storage : List Content → CallResult)
    (docs : List Content) : ∀ (s : AddDocsState),
    (docs.foldl (addStep storage) s).documents = s.documents := by
  induction docs with
  | nil => intro s; rfl
  | cons d rest ih =>
      intro s
      rw [List.foldl_cons, ih]
      cases h : storage [d] <;> simp [addStep, h]

theorem addLoop_calls (storage : List Content → CallResult)
    (docs : List Content) : ∀ (s : AddDocsState),
    (docs.foldl (addStep storage) s).calls
      = s.calls ++ docs.map (fun d => [d]) := by
  induction docs with
  | nil => intro s; simp
  | cons d rest ih =>
      intro s
      rw [List.foldl_cons, ih]
      cases h : storage [d] <;> simp [addStep, h]

theorem addLoop_fails (storage : List Content → CallResult)
    (docs : List Content) : ∀ (s : AddDocsState),
    (docs.foldl (addStep storage) s).fails_count
      = s.fails_count + numFails storage docs := by
  induction docs with
  | nil => intro s; simp [numFails]
  | cons d rest ih =>
      intro s
      rw [List.foldl_cons, ih]
      cases h : storage [d] <;>
        simp [addStep, h, numFails, List.filter_cons, raisesB]
      omega

theorem addLoop_output (storage : List Content → CallResult)
    (docs : List Content) : ∀ (s : AddDocsState),
    (docs.foldl (addStep storage) s).output
      = s.output ++ failOutput storage docs := by
  induction docs with
  | nil => intro s; simp [failOutput]
  | cons d rest ih =>
      intro s
      rw [List.foldl_cons, ih]
      cases h : storage [d] <;>
        simp [addStep, h, failOutput, List.filterMap_cons]

theorem finalize_documents (s : AddDocsState) :
    (finalize s).documents = s.documents := by
  unfold finalize; split <;> rfl

theorem finalize_calls (s : AddDocsState) :
    (finalize s).calls = s.calls := by
  unfold finalize; split <;> rfl

theorem summaryCounts_append (a b : List OutLine) :
    summaryCounts (a ++ b) = summaryCounts a ++ summaryCounts b := by
  simp [summaryCounts, List.filterMap_append]

theorem summaryCounts_failOutput (storage : List Content → CallResult)
    (docs : List Content) :
    summaryCounts (failOutput storage docs) = [] := by
  induction docs with
  | nil => rfl
  | cons d rest ih =>
      cases h : storage [d]
      · have hfo : failOutput storage (d :: rest) = failOutput storage rest := by
          simp [failOutput, List.filterMap_cons, h]
        rw [hfo]; exact ih
      · rename_i e
        have hfo : failOutput storage (d :: rest)
            = OutLine.failMsg e :: failOutput storage rest := by
          simp [failOutput, List.filterMap_cons, h]
        rw [hfo]
        simpa [summaryCounts, List.filterMap_cons] using ih

theorem finalize_summary (s : AddDocsState) :
    summaryCounts (finalize s).output
      = summaryCounts s.output
          ++ (if s.fails_count = 0 then [] else [s.fails_count]) := by
  unfold finalize
  split
  · rename_i h
    rw [summaryCounts_append]
    simp [summaryCounts, List.filterMap_cons, h]
  · rename_i h
    simp at h
    simp [h]

theorem mem_finalize_output (s : AddDocsState) (l : OutLine)
    (h : l ∈ s.output) : l ∈ (finalize s).output := by
  unfold finalize
  split
  · exact List.mem_append_left _ h
  · exact h

theorem add_documents_calls_eq (storage : List Content → CallResult)
    (documents : List Content) :
    (add_documents storage documents).calls
      = documents.map (fun d => [d]) := by
  unfold add_documents
  rw [finalize_calls, addLoop_calls]
  simp

theorem add_documents_summary_eq (storage : List Content → CallResult)
    (documents : List Content) :
    summaryCounts (add_documents storage documents).output
      = (if numFails storage documents = 0
          then [] else [numFails storage documents]) := by
  unfold add_documents
  rw [finalize_summary, addLoop_output, addLoop_fails]
  rw [summaryCounts_append, summaryCounts_failOutput]
  simp [summaryCounts]

theorem flatten_map_singleton {α : Type} (l : List α) :
    (l.map (fun d => [d])).flatten = l := by
  induction l with
  | nil => rfl
  | cons a t ih => simp [List.map_cons, List.flatten, ih]

/-- A sample Content value, for concrete witness runs. -/
def sampleContent : Content :=
  ⟨"docs/a.md", "hello world", "wiki", "a.md", "master"⟩

/-- A second sample Content value. -/
def sampleContent2 : Content :=
  ⟨"web/b.py", "print(1)", "code", "b.py", "master"⟩

/-- A storage behaviour in which every call succeeds. -/
def okStorage : List Content → CallResult := fun _ => CallResult.ok

/-- A storage behaviour in which every call raises. -/
def failStorage : List Content → CallResult :=
  fun _ => CallResult.raises "boom"

/-- Claim C1: every document in the list passed to add_documents is
attempted exactly once (the trace of storage.add_documents calls is
exactly one singleton call per document, in order, with no retry), and
when exactly N of those calls raise, the printed summary lines report
exactly the count N (and no summary line appears when N is zero). -/
theorem add_documents_once_and_summary
    (storage : List Content → CallResult) (documents : List Content) :
    (add_documents storage documents).calls
        = documents.map (fun d => [d]) ∧
    summaryCounts (add_documents storage documents).output
        = (if numFails storage documents = 0
            then [] else [numFails storage documents]) :=
  ⟨add_documents_calls_eq storage documents,
   add_documents_summary_eq storage documents⟩

/-- Claim C3: an exception raised by storage.add_documents for one
document is caught inside that iteration: every remaining document is
still attempted (the call trace covers the whole list), the failure
message is printed, and add_documents returns normally (its result
type carries no exception, for every storage behaviour). -/
theorem add_documents_catches_and_continues
    (storage : List Content → CallResult) (e : String)
    (pre rest : List Content) (d : Content)
    (h : storage [d] = CallResult.raises e) :
    (add_documents storage (pre ++ d :: rest)).calls
        = (pre ++ d :: rest).map (fun x => [x]) ∧
    OutLine.failMsg e ∈ (add_documents storage (pre ++ d :: rest)).output := by
  refine ⟨add_documents_calls_eq storage (pre ++ d :: rest), ?_⟩
  unfold add_documents
  apply mem_finalize_output
  rw [addLoop_output]
  apply List.mem_append_right
  simp only [failOutput, List.filterMap_append]
  apply List.mem_append_right
  simp [List.filterMap_cons, h]

/-- Witness for C3 at a concrete failing storage and document list. -/
theorem add_documents_catches_and_continues_witness :
    failStorage [sampleContent] = CallResult.raises "boom" ∧
    ((add_documents failStorage ([] ++ sampleContent :: [sampleContent2])).calls
        = ([] ++ sampleContent :: [sampleContent2]).map (fun x => [x]) ∧
      OutLine.failMsg "boom"
        ∈ (add_documents failStorage ([] ++ sampleContent :: [sampleContent2])).output) :=
  ⟨rfl, add_documents_catches_and_continues failStorage "boom" []
    [sampleContent2] sampleContent rfl⟩

/-- Claim C6: add_documents never mutates the documents list it
receives nor any Content element in it: the documents component of the
final state is the input list itself, and the Content values passed to
the vector store are exactly the input elements, unchanged. -/
theorem add_documents_no_mutation
    (storage : List Content → CallResult) (documents : List Content) :
    (add_documents storage documents).documents = documents ∧
    (add_documents storage documents).calls.flatten = documents := by
  constructor
  · unfold add_documents
    rw [finalize_documents, addLoop_documents]
  · rw [add_documents_calls_eq, flatten_map_singleton]

/-- Claim C9: when every document is added successfully (zero
failures), add_documents prints no failure-summary line at all. -/
theorem add_documents_no_summary_on_success
    (storage : List Content → CallResult) (documents : List Content)
    (h : numFails storage documents = 0) :
    summaryCounts (add_documents storage documents).output = [] := by
  rw [add_documents_summary_eq, if_pos h]

/-- Witness for C9 at a concrete all-success storage. -/
theorem add_documents_no_summary_on_success_witness :
    numFails okStorage [sampleContent, sampleContent2] = 0 ∧
    summaryCounts (add_documents okStorage [sampleContent, sampleContent2]).output = [] :=
  ⟨rfl, add_documents_no_summary_on_success okStorage
    [sampleContent, sampleContent2] rfl⟩

/-- Claim C10: add_documents attempts the documents in input order and
passes each to storage.add_documents as a singleton list, so a list of
length n yields exactly n calls to the vector store. -/
theorem add_documents_singleton_calls
    (storage : List Content → CallResult) (documents : List Content) :
    (add_documents storage documents).calls
        = documents.map (fun d => [d]) ∧
    (add_documents storage documents).calls.length = documents.length := by
  refine ⟨add_documents_calls_eq storage documents, ?_⟩
  rw [add_documents_calls_eq, List.length_map]

/-- A line printed by run_terminal after a successful prompt: echoQ q
stands for print(f -> Q: question) and echoA a for print(f AI: answer)
(main.py lines 25-26). -/
inductive TermLine where
  | echoQ : String → TermLine
  | echoA : String → TermLine
  deriving DecidableEq, Repr

/-- How a run of the terminal loop ends: quit when a quit keyword
broke the loop; eof when standard input ran out (the input() builtin
raises end-of-file); exception e when chat.prompt raised e, which
propagates uncaught out of run_terminal. -/
inductive TermResult where
  | quit : TermResult
  | eof : TermResult
  | exception : String → TermResult
  deriving DecidableEq, Repr

/-- Trace of a run of run_terminal: the questions passed to
chat.prompt, in call order, the lines printed, and how it ended. -/
structure TermTrace where
  prompts : List String
  output : List TermLine
  result : TermResult
  deriving DecidableEq, Repr

/-- Python str.lower, character by character; like Char.toLower it
lowercases the basic latin letters, which covers the ASCII quit
keywords the guard compares against. -/
def lowerAscii (s : String) : String := ⟨s.data.map Char.toLower⟩

/-- The loop guard of run_terminal (main.py line 21): the question
lowercased is a member of the list of quit keywords. -/
def isQuit (question : String) : Bool :=
  (["q", "quit", "exit"] : List String).contains (lowerAscii question)

/-- run_terminal from main.py lines 16-26, run on a finite script of
standard-input lines. Each iteration reads a question; on a quit
keyword the loop breaks without calling the assistant; otherwise
chat.prompt is called with the question (modelled by the prompt
parameter, whose error case is a raised exception, which aborts the
loop and propagates) and the answer is echoed before looping. -/
def run_terminal (prompt : String → Except String String) :
    List String → TermTrace
  | [] => ⟨[], [], TermResult.eof⟩
  | question :: rest =>
      if isQuit question then ⟨[], [], TermResult.quit⟩
      else
        match prompt question with
        | Except.error e => ⟨[question], [], TermResult.exception e⟩
        | Except.ok answer =>
            let t := run_terminal prompt rest
            ⟨question :: t.prompts,
             TermLine.echoQ question :: TermLine.echoA answer :: t.output,
             t.result⟩

/-- A prompt behaviour that always answers. -/
def okPrompt : String → Except String String := fun _ => Except.ok "fine"

/-- A prompt behaviour that always raises. -/
def errPrompt : String → Except String String :=
  fun _ => Except.error "boom"

/-- Claim C2: the loop guard holds exactly on the inputs whose
lowercase form is q, quit or exit; on such an input the loop
terminates at once with no prompt call; on any other input, when the
assistant answers, chat.prompt is invoked with that question and the
loop continues on the rest of the input. -/
theorem run_terminal_loop_spec (prompt : String → Except String String)
    (question : String) (rest : List String) :
    (isQuit question = true ↔
      (lowerAscii question = "q" ∨ lowerAscii question = "quit"
        ∨ lowerAscii question = "exit")) ∧
    (isQuit question = true →
      run_terminal prompt (question :: rest) = ⟨[], [], TermResult.quit⟩) ∧
    (∀ answer, isQuit question = false → prompt question = Except.ok answer →
      run_terminal prompt (question :: rest) =
        ⟨question :: (run_terminal prompt rest).prompts,
         TermLine.echoQ question :: TermLine.echoA answer
           :: (run_terminal prompt rest).output,
         (run_terminal prompt rest).result⟩) := by
  refine ⟨?_, ?_, ?_⟩
  · simp [isQuit, List.contains]
  · intro h
    simp [run_terminal, h]
  · intro answer hq hp
    simp [run_terminal, hq, hp]

/-- Witness for C2: a quit input (uppercase, lowercased by the guard)
stops the loop before any prompt; a normal input is prompted. -/
theorem run_terminal_loop_spec_witness :
    isQuit "QUIT" = true ∧
    run_terminal okPrompt ("QUIT" :: ["ignored"]) = ⟨[], [], TermResult.quit⟩ ∧
    isQuit "hello" = false ∧
    okPrompt "hello" = Except.ok "fine" ∧
    run_terminal okPrompt ("hello" :: []) =
      ⟨"hello" :: (run_terminal okPrompt []).prompts,
       TermLine.echoQ "hello" :: TermLine.echoA "fine"
         :: (run_terminal okPrompt []).output,
       (run_terminal okPrompt []).result⟩ :=
  ⟨by decide,
   (run_terminal_loop_spec okPrompt "QUIT" ["ignored"]).2.1 (by decide),
   by decide, rfl,
   (run_terminal_loop_spec okPrompt "hello" []).2.2 "fine" (by decide) rfl⟩

/-- Claim C4: nothing in run_terminal handles assistant failures: when
chat.prompt raises on a non-quit input, the exception propagates
uncaught out of run_terminal (the run ends with that exception, no
echo is printed for it, and no further input is read). -/
theorem run_terminal_propagates (prompt : String → Except String String)
    (question e : String) (rest : List String)
    (hq : isQuit question = false) (hp : prompt question = Except.error e) :
    run_terminal prompt (question :: rest)
      = ⟨[question], [], TermResult.exception e⟩ := by
  simp [run_terminal, hq, hp]

/-- Witness for C4 at a concrete always-raising prompt. -/
theorem run_terminal_propagates_witness :
    isQuit "hello" = false ∧
    errPrompt "hello" = Except.error "boom" ∧
    run_terminal errPrompt ("hello" :: ["more"])
      = ⟨["hello"], [], TermResult.exception "boom"⟩ :=
  ⟨by decide, rfl,
   run_terminal_propagates errPrompt "hello" "boom" ["more"] (by decide) rfl⟩

/-- The two content ports fetch_documents uses (main.py lines 58-59). -/
inductive PortId where
  | code : PortId
  | wiki : PortId
  deriving DecidableEq, Repr

/-- A call made by fetch_documents to a content port: get_by_path with
a local path or get_by_url with a remote URL, each carrying the
project name and an optional branch keyword. -/
inductive FetchCall where
  | get_by_path : PortId → String → String → Option String → FetchCall
  | get_by_url : PortId → String → String → Option String → FetchCall
  deriving DecidableEq, Repr

/-- Path.joinpath for the string model of paths. -/
def joinpath (base name : String) : String := base ++ "/" ++ name

/-- The hard-coded project of fetch_documents (main.py line 62). -/
def project : String := "pdf.js"

/-- The code clone URL (main.py line 64). -/
def code_url : String := "ssh://git@github.com/mozilla/" ++ project ++ ".git"

/-- The wiki clone URL (main.py line 67). -/
def wiki_url : String :=
  "ssh://git@github.com/mozilla/" ++ project ++ ".wiki.git"

/-- The port of a fetch call. -/
def portOf : FetchCall → PortId
  | FetchCall.get_by_path p _ _ _ => p
  | FetchCall.get_by_url p _ _ _ => p

/-- fetch_documents from main.py lines 57-81, as the trace of content
port calls it makes. path_exists models Path.exists on the
filesystem. For the code source it calls get_by_path on the local
checkout when assets_path/pdf.js exists and get_by_url on the GitHub
URL otherwise, both with branch master; for the wiki source likewise
with assets_path/pdf.js.wiki and no branch keyword. The fetched
documents are then handed to add_documents, embedded above. -/
def fetch_documents (assets_path : String)
    (path_exists : String → Bool) : List FetchCall :=
  (if path_exists (joinpath assets_path project) then
      [FetchCall.get_by_path PortId.code project
        (joinpath assets_path project) (some "master")]
    else
      [FetchCall.get_by_url PortId.code project code_url (some "master")])
  ++
  (if path_exists (joinpath assets_path (project ++ ".wiki")) then
      [FetchCall.get_by_path PortId.wiki project
        (joinpath assets_path (project ++ ".wiki")) none]
    else
      [FetchCall.get_by_url PortId.wiki project wiki_url none])

/-- Claim C8: fetch_documents prefers a local checkout over the
network, independently for the code and wiki sources: the trace is
exactly one call per source, get_by_path on the local path when it
exists and get_by_url on the GitHub URL otherwise — never both for
the same source. -/
theorem fetch_documents_prefers_local (assets_path : String)
    (path_exists : String → Bool) :
    fetch_documents assets_path path_exists =
      [(if path_exists (joinpath assets_path project) then
          FetchCall.get_by_path PortId.code project
            (joinpath assets_path project) (some "master")
        else
          FetchCall.get_by_url PortId.code project code_url (some "master")),
       (if path_exists (joinpath assets_path (project ++ ".wiki")) then
          FetchCall.get_by_path PortId.wiki project
            (joinpath assets_path (project ++ ".wiki")) none
        else
          FetchCall.get_by_url PortId.wiki project wiki_url none)] ∧
    ((fetch_documents assets_path path_exists).filter
        (fun c => portOf c == PortId.code)).length = 1 ∧
    ((fetch_documents assets_path path_exists).filter
        (fun c => portOf c == PortId.wiki)).length = 1 := by
  cases h1 : path_exists (joinpath assets_path project) <;>
    cases h2 : path_exists (joinpath assets_path (project ++ ".wiki")) <;>
      simp [fetch_documents, h1, h2, portOf]

/-- The sub-containers the Settings container composes
(src/core/containers.py lines 115-128). -/
inductive ContainerName where
  | core : ContainerName
  | ai : ContainerName
  | storage : ContainerName
  | content : ContainerName
  | assistant : ContainerName
  | app : ContainerName
  deriving DecidableEq, Repr

/-- The already-constructed containers each sub-container receives as
constructor arguments in Settings: storage takes ai; assistant takes
ai and storage; app takes assistant (as its assistent argument); core,
ai and content take only configuration. -/
def containerDeps : ContainerName → List ContainerName
  | ContainerName.core => []
  | ContainerName.ai => []
  | ContainerName.storage => [ContainerName.ai]
  | ContainerName.content => []
  | ContainerName.assistant => [ContainerName.ai, ContainerName.storage]
  | ContainerName.app => [ContainerName.assistant]

/-- The order in which Settings declares and composes its
sub-containers (src/core/containers.py lines 118-128). -/
def settingsOrder : List ContainerName :=
  [ContainerName.core, ContainerName.ai, ContainerName.storage,
   ContainerName.content, ContainerName.assistant, ContainerName.app]

/-- A value wired into a provider keyword argument: either a
configuration entry or a provider of another container. -/
inductive ArgValue where
  | configRef : String → ArgValue
  | providerRef : ContainerName → String → ArgValue
  deriving DecidableEq, Repr

/-- The keyword wiring of the PGVector vector_storage Singleton in
StorageAdapters (src/core/containers.py lines 59-64). -/
def vector_storage_args : List (String × ArgValue) :=
  [("connection_string", ArgValue.configRef "vector.url"),
   ("embedding_function",
      ArgValue.providerRef ContainerName.ai "embeddings"),
   ("pre_delete_collection",
      ArgValue.configRef "vector.pre_delete_collection")]

/-- Claim C5: Settings composes the container graph leaf-first: its
declaration order contains each of the six containers exactly once,
and every container dependency appears strictly earlier in that
order than the container that receives it (ai before storage, ai and
storage before assistant, assistant before app); and the
embedding_function of the vector store is exactly the embeddings
provider of the AI container. -/
theorem settings_composition_order :
    settingsOrder.Nodup ∧
    ContainerName.core ∈ settingsOrder ∧
    ContainerName.ai ∈ settingsOrder ∧
    ContainerName.storage ∈ settingsOrder ∧
    ContainerName.content ∈ settingsOrder ∧
    ContainerName.assistant ∈ settingsOrder ∧
    ContainerName.app ∈ settingsOrder ∧
    (settingsOrder.all (fun c =>
        (containerDeps c).all (fun d =>
          decide (settingsOrder.indexOf d < settingsOrder.indexOf c)))
      = true) ∧
    (vector_storage_args.filter (fun p => p.1 == "embedding_function"))
      = [("embedding_function",
            ArgValue.providerRef ContainerName.ai "embeddings")] := by
  decide

end DocGpt
